import Mathlib

/-!
Shallow embedding of the `rafting_trip` crate: a tick-driven simulation of
Raft leader election (`raft_buddy.rs`, `raft_log.rs`, `raft_temporal.rs`,
`raft_message.rs`, `raft_channel.rs`, `raft_topology.rs`, `raft_id.rs`).

Modelling conventions:
* `usize` becomes `Nat` (the program only decrements with `checked_sub`,
  so no wrap-around arithmetic occurs anywhere).
* A channel (`Vec<RaftMessage>` queue) becomes `List RaftMessage` in push
  order: `push` appends at the end, `pop` removes the last element, exactly
  the `TestRaftChannel` implementation in `lib.rs` (the inherent
  `RaftChannel` methods in `raft_channel.rs` are all unimplemented).
* The `Topology` (`BTreeMap<RaftId, Rc<RefCell<Channel>>>`) becomes an
  association list from id to queue, iterated in list order; the `BTreeMap`
  keeps keys unique, which theorems assume through explicit hypotheses
  where it matters.
* Paths that panic in Rust (`todo!()`, `.expect(..)`, and a `RefCell`
  double borrow when a node would push into its own channel while its
  inbox borrow is held inside `process_inbox`) are modelled as `none`.
-/

namespace RaftingTrip

/-- From `raft_id.rs`: `pub struct RaftId(pub usize)` — modelled as `Nat`. -/
abbrev RaftId := Nat

/-- From `raft_message.rs`: `RaftMessageBody { id, current_term, log_length }`. -/
structure RaftMessageBody where
  id : RaftId
  current_term : Nat
  log_length : Nat
deriving DecidableEq, Repr

/-- From `raft_message.rs`: the three protocol message kinds. -/
inductive RaftMessage where
  | RequestVote (body : RaftMessageBody)
  | VoteForCandidate (body : RaftMessageBody)
  | RejectCandidateVote (body : RaftMessageBody)
deriving DecidableEq, Repr

/-- From `raft_log.rs`: `enum LogEntry { Root, Node { term, index, contents } }`. -/
inductive LogEntry where
  | Root
  | Node (term : Nat) (index : Nat) (contents : String)
deriving DecidableEq, Repr

/-- From `raft_log.rs`: `RaftLog(Vec<LogEntry>)`. -/
abbrev RaftLog := List LogEntry

/-- The `prev_term_matches` binding inside `RaftLog::append_entries`. -/
def prev_term_matches (prev_entry : LogEntry) (prev_term prev_index : Nat) : Bool :=
  match prev_entry with
  | .Root => true
  | .Node term index _ => term == prev_term && index == prev_index

/-- The `new_entry_is_contiguous` binding inside `RaftLog::append_entries`. -/
def new_entry_is_contiguous (new_entry : LogEntry) (prev_index : Nat) : Bool :=
  match new_entry with
  | .Node _ index _ => index == prev_index + 1
  | .Root => false

/-- From `raft_log.rs`: `RaftLog::append_entries`.  Returns the boolean result
together with the (possibly mutated) log; `self.truncate(prev_index + 1)`
is `List.take (prev_index + 1)` and `self.append(&mut entries)` is `++`. -/
def append_entries (log : RaftLog) (prev_index prev_term : Nat)
    (entries : List LogEntry) : Bool × RaftLog :=
  match log.get? prev_index with
  | none => (false, log)
  | some prev_entry =>
    let ptm := prev_term_matches prev_entry prev_term prev_index
    match entries.head? with
    | none => (true, log)
    | some new_entry =>
      let contiguous := new_entry_is_contiguous new_entry prev_index
      if ptm && contiguous then
        (ptm && contiguous, log.take (prev_index + 1) ++ entries)
      else
        (ptm && contiguous, log)

/-- From `raft_temporal.rs`: `RaftTimer { default_timeout, ticks_left }`. -/
structure RaftTimer where
  default_timeout : Nat
  ticks_left : Nat
deriving DecidableEq, Repr

/-- From `raft_temporal.rs`: `ticks_left = ticks_left.checked_sub(1).unwrap_or(default_timeout)`. -/
def RaftTimer.tick (t : RaftTimer) : RaftTimer :=
  { t with ticks_left := if t.ticks_left = 0 then t.default_timeout else t.ticks_left - 1 }

/-- From `raft_buddy.rs`: `enum Role { Follower, Candidate, Leader }`. -/
inductive Role where
  | Follower
  | Candidate
  | Leader
deriving DecidableEq, Repr

/-- From `raft_topology.rs`: `Topology(BTreeMap<RaftId, RcMutChannel>)`, as an
association list from id to that node's channel queue (push order). -/
abbrev Topology := List (RaftId × List RaftMessage)

/-- Embedding of `RaftBuddy::get_channel` / `channel`: `.find(|(peer_id, _)| **peer_id == id)`;
`none` models the `.expect("Invalid candidate selected")` panic. -/
def get_channel (topo : Topology) (cid : RaftId) : Option (List RaftMessage) :=
  match topo with
  | [] => none
  | p :: rest => if p.1 = cid then some p.2 else get_channel rest cid

/-- Embedding of `Channel::push` through the handle returned by `get_channel`: append one
message at the end of the first queue keyed `cid` (a `BTreeMap` holds at most
one). -/
def push_channel (topo : Topology) (cid : RaftId) (m : RaftMessage) : Topology :=
  match topo with
  | [] => []
  | p :: rest =>
    if p.1 = cid then (p.1, p.2 ++ [m]) :: rest
    else p :: push_channel rest cid m

/-- Replace the queue of the first channel keyed `cid` (used to model the
draining `pop` loop of `process_inbox`, which leaves the queue empty). -/
def set_channel (topo : Topology) (cid : RaftId) (q : List RaftMessage) : Topology :=
  match topo with
  | [] => []
  | p :: rest =>
    if p.1 = cid then (p.1, q) :: rest
    else p :: set_channel rest cid q

/-- From `raft_buddy.rs`: `struct RaftBuddy`.  The `Rc<RefCell<_>>` channels shared
through the topology are modelled by storing the queues inside the node's own
copy of the topology (single-node theorems never alias two topologies). -/
structure RaftBuddy where
  role : Role
  id : RaftId
  topology : Topology
  timer : RaftTimer
  current_term : Nat
  log : RaftLog
  /-- Field `BTreeMap<RaftId, Message>` as an association list (unique keys). -/
  votes_received : List (RaftId × RaftMessage)
deriving DecidableEq, Repr

/-- Embedding of `RaftBuddy::become_candidate`: `self.role = Role::Candidate;`. -/
def become_candidate (b : RaftBuddy) : RaftBuddy :=
  { b with role := .Candidate }

/-- Embedding of `RaftBuddy::become_leader`: `self.role = Role::Leader;`. -/
def become_leader (b : RaftBuddy) : RaftBuddy :=
  { b with role := .Leader }

/-- The `matches!(vote, Message::VoteForCandidate(..))` filter of
`received_majority_votes`. -/
def is_vote_for_candidate : RaftMessage → Bool
  | .VoteForCandidate _ => true
  | _ => false

/-- Embedding of `RaftBuddy::received_majority_votes`: count `VoteForCandidate` values,
compare with `(topology.len() / 2) + 1`. -/
def received_majority_votes (b : RaftBuddy) : Bool :=
  let majority := b.topology.length / 2 + 1
  let received := (b.votes_received.filter fun p => is_vote_for_candidate p.2).length
  decide (majority ≤ received)

/-- Embedding of `self.votes_received.entry(id).or_insert(vote)`: insert only when the key
is absent.  (`BTreeMap` stores entries sorted by key; every observation made
here — entry membership, key set, value multiset, filtered counts — is
order-insensitive, so the new entry is appended at the end.) -/
def entry_or_insert (votes : List (RaftId × RaftMessage)) (k : RaftId)
    (v : RaftMessage) : List (RaftId × RaftMessage) :=
  if votes.any fun p => p.1 == k then votes else votes ++ [(k, v)]

/-- Embedding of `RaftBuddy::accept_candidate`: push `VoteForCandidate` with own
`{id, current_term, log.len()}` into `candidate_id`'s channel.  `none` models
the `.expect` panic for an unknown id, and the `RefCell` double-borrow panic
when the target is the node's own channel (whose borrow is held by the
enclosing `process_inbox` drain). -/
def accept_candidate (b : RaftBuddy) (candidate_id : RaftId) : Option RaftBuddy :=
  if candidate_id = b.id then none
  else
    match get_channel b.topology candidate_id with
    | none => none
    | some _ =>
      let msg : RaftMessage := .VoteForCandidate ⟨b.id, b.current_term, b.log.length⟩
      some { b with topology := push_channel b.topology candidate_id msg }

/-- Embedding of `RaftBuddy::reject_candidate`: as `accept_candidate` but pushes
`RejectCandidateVote`. -/
def reject_candidate (b : RaftBuddy) (candidate_id : RaftId) : Option RaftBuddy :=
  if candidate_id = b.id then none
  else
    match get_channel b.topology candidate_id with
    | none => none
    | some _ =>
      let msg : RaftMessage := .RejectCandidateVote ⟨b.id, b.current_term, b.log.length⟩
      some { b with topology := push_channel b.topology candidate_id msg }

/-- One arm of the `match message` inside `RaftBuddy::process_inbox`. -/
def process_message (b : RaftBuddy) : RaftMessage → Option RaftBuddy
  | .RequestVote body =>
    match (compare b.current_term body.current_term).then
        (compare b.log.length body.log_length) with
    | .lt => reject_candidate b body.id
    | .eq => accept_candidate b body.id
    | .gt => accept_candidate b body.id
  | .VoteForCandidate body =>
    if b.role = .Candidate then
      let votes' := entry_or_insert b.votes_received body.id (.VoteForCandidate body)
      let b' := { b with votes_received := votes' }
      if received_majority_votes b' then some (become_leader b') else some b'
    else some b
  | .RejectCandidateVote body =>
    match (compare b.current_term body.current_term).then
        (compare b.log.length body.log_length) with
    | .lt => none
    | .eq => none
    | .gt => none

/-- The `while let Some(message) = inbox.pop()` loop over an already popped
message list. -/
def process_messages (b : RaftBuddy) : List RaftMessage → Option RaftBuddy
  | [] => some b
  | m :: rest =>
    match process_message b m with
    | none => none
    | some b' => process_messages b' rest

/-- Embedding of `RaftBuddy::process_inbox`: drain the node's own channel.  `Vec::pop`
removes the most recently pushed message first, so the queue is processed in
reverse push order; the pops leave the queue empty, and no processing step
ever successfully pushes into the draining node's own channel (that would be
a `RefCell` double borrow, modelled `none`), so the queue is emptied up
front. -/
def process_inbox (b : RaftBuddy) : Option RaftBuddy :=
  match get_channel b.topology b.id with
  | none => none
  | some q =>
    process_messages { b with topology := set_channel b.topology b.id [] } q.reverse

/-- Embedding of `RaftBuddy::solicit_votes`: push `RequestVote{id, current_term, log.len()}`
into every channel of `follower_channels` (every topology entry whose key is
not the node's own id), in topology order. -/
def solicit_votes (b : RaftBuddy) : RaftBuddy :=
  let msg : RaftMessage := .RequestVote ⟨b.id, b.current_term, b.log.length⟩
  { b with topology := b.topology.map fun p =>
      if p.1 = b.id then p else (p.1, p.2 ++ [msg]) }

/-- Embedding of `impl Temporal for RaftBuddy`: `tick` advances the timer, drains the inbox
when `has_messages()`, then on `ticks_left == 0` becomes Candidate and
broadcasts vote solicitations. -/
def tick (b0 : RaftBuddy) : Option RaftBuddy :=
  let b := { b0 with timer := b0.timer.tick }
  match get_channel b.topology b.id with
  | none => none
  | some q =>
    match (if q.isEmpty then some b else process_inbox b) with
    | none => none
    | some b2 =>
      some (if b2.timer.ticks_left = 0 then solicit_votes (become_candidate b2) else b2)

/-- The `matches!`-style test for `RequestVote`, used to count solicitations
a channel received. -/
def is_request_vote : RaftMessage → Bool
  | .RequestVote _ => true
  | _ => false

/-- Number of `RequestVote` messages in a channel queue. -/
def count_request_votes (q : List RaftMessage) : Nat :=
  (q.filter is_request_vote).length

/-! ### Concrete states used by the closed-form checks -/

/-- A follower in a two-member topology whose timer is about to fire. -/
def w_node : RaftBuddy :=
  ⟨.Follower, 0, [(0, []), (1, [])], ⟨5, 1⟩, 0, [.Root], []⟩

/-- The state of `w_node` after one `tick`: the timer fired, the node became
Candidate and enqueued one `RequestVote` into peer 1's mailbox. -/
def w_node' : RaftBuddy :=
  ⟨.Candidate, 0, [(0, []), (1, [.RequestVote ⟨0, 0, 1⟩])], ⟨5, 0⟩, 0, [.Root], []⟩

/-- A follower (id 1) in a two-member topology with an idle timer. -/
def w_recv : RaftBuddy :=
  ⟨.Follower, 1, [(0, []), (1, [])], ⟨5, 5⟩, 0, [.Root], []⟩

/-- The state of `w_recv` after processing `RequestVote{0, 0, 1}`: a
`VoteForCandidate` was pushed into node 0's mailbox. -/
def w_recv' : RaftBuddy :=
  ⟨.Follower, 1, [(0, [.VoteForCandidate ⟨1, 0, 1⟩]), (1, [])], ⟨5, 5⟩, 0, [.Root], []⟩

/-- A candidate (id 0) in a five-member topology holding two recorded votes. -/
def w_cand : RaftBuddy :=
  ⟨.Candidate, 0, [(0, []), (1, []), (2, []), (3, []), (4, [])], ⟨100, 50⟩, 0, [.Root],
    [(1, .VoteForCandidate ⟨1, 0, 1⟩), (2, .VoteForCandidate ⟨2, 0, 1⟩)]⟩

/-- The state of `w_cand` after a third distinct `VoteForCandidate` arrives:
three of five is a bare majority, so the node is Leader. -/
def w_cand' : RaftBuddy :=
  ⟨.Leader, 0, [(0, []), (1, []), (2, []), (3, []), (4, [])], ⟨100, 50⟩, 0, [.Root],
    [(1, .VoteForCandidate ⟨1, 0, 1⟩), (2, .VoteForCandidate ⟨2, 0, 1⟩),
      (3, .VoteForCandidate ⟨3, 0, 1⟩)]⟩

/-- State `w_cand` with role Follower: a non-candidate receiving a vote. -/
def w_fol : RaftBuddy :=
  ⟨.Follower, 0, [(0, []), (1, []), (2, []), (3, []), (4, [])], ⟨100, 50⟩, 0, [.Root],
    [(1, .VoteForCandidate ⟨1, 0, 1⟩), (2, .VoteForCandidate ⟨2, 0, 1⟩)]⟩

/-- A candidate with one recorded vote whose timer is about to fire again. -/
def w_cand2 : RaftBuddy :=
  ⟨.Candidate, 0, [(0, []), (1, [])], ⟨5, 1⟩, 0, [.Root],
    [(1, .VoteForCandidate ⟨1, 0, 1⟩)]⟩

/-- The state of `w_cand2` after one `tick`: it re-campaigned and still holds
the previously recorded vote. -/
def w_cand2' : RaftBuddy :=
  ⟨.Candidate, 0, [(0, []), (1, [.RequestVote ⟨0, 0, 1⟩])], ⟨5, 0⟩, 0, [.Root],
    [(1, .VoteForCandidate ⟨1, 0, 1⟩)]⟩

/-! ### Helper lemmas -/

theorem cmp_lex_eq_lt (a c b d : Nat) :
    (compare a c).then (compare b d) = .lt ↔ a < c ∨ (a = c ∧ b < d) := by
  rw [Ordering.then_eq_lt, Nat.compare_eq_lt, Nat.compare_eq_lt, Nat.compare_eq_eq]

theorem cmp_lex_eq_eq (a c b d : Nat) :
    (compare a c).then (compare b d) = .eq ↔ a = c ∧ b = d := by
  rw [Ordering.then_eq_eq, Nat.compare_eq_eq, Nat.compare_eq_eq]

theorem cmp_lex_eq_gt (a c b d : Nat) :
    (compare a c).then (compare b d) = .gt ↔ c < a ∨ (a = c ∧ d < b) := by
  rw [Ordering.then_eq_gt, Nat.compare_eq_gt, Nat.compare_eq_gt, Nat.compare_eq_eq]

theorem count_request_votes_append (q : List RaftMessage) (m : RaftMessage) :
    count_request_votes (q ++ [m]) =
      count_request_votes q + (if is_request_vote m then 1 else 0) := by
  simp only [count_request_votes, List.filter_append]
  cases h : is_request_vote m <;> simp [h]

theorem get_channel_push (topo : Topology) (cid k : RaftId) (m : RaftMessage) :
    get_channel (push_channel topo cid m) k =
      if k = cid then (get_channel topo cid).map (fun q => q ++ [m])
      else get_channel topo k := by
  induction topo with
  | nil => simp [get_channel, push_channel]
  | cons p rest ih =>
    by_cases h1 : p.1 = cid
    · subst h1
      by_cases h2 : k = p.1
      · subst h2
        simp [get_channel, push_channel]
      · simp [get_channel, push_channel, Ne.symm h2, h2]
    · by_cases h2 : k = cid
      · subst h2
        simp [get_channel, push_channel, h1, ih]
      · simp [get_channel, push_channel, h1, h2, ih]

theorem get_channel_set (topo : Topology) (cid k : RaftId) (q : List RaftMessage) :
    get_channel (set_channel topo cid q) k =
      if k = cid then (get_channel topo cid).map (fun _ => q)
      else get_channel topo k := by
  induction topo with
  | nil => simp [get_channel, set_channel]
  | cons p rest ih =>
    by_cases h1 : p.1 = cid
    · subst h1
      by_cases h2 : k = p.1
      · subst h2
        simp [get_channel, set_channel]
      · simp [get_channel, set_channel, Ne.symm h2, h2]
    · by_cases h2 : k = cid
      · subst h2
        simp [get_channel, set_channel, h1, ih]
      · simp [get_channel, set_channel, h1, h2, ih]

theorem get_channel_map_push (topo : Topology) (i k : RaftId) (m : RaftMessage) :
    get_channel (topo.map fun p => if p.1 = i then p else (p.1, p.2 ++ [m])) k =
      if k = i then get_channel topo k
      else (get_channel topo k).map (fun q => q ++ [m]) := by
  induction topo with
  | nil => simp [get_channel]
  | cons p rest ih =>
    by_cases h1 : p.1 = i
    · subst h1
      by_cases h2 : k = p.1
      · subst h2
        simp [get_channel]
      · simp [get_channel, Ne.symm h2, h2, ih]
    · by_cases h2 : k = i
      · subst h2
        by_cases h3 : p.1 = k <;> simp [get_channel, h1, h3, ih]
      · by_cases h3 : p.1 = k <;> simp [get_channel, h1, h2, h3, ih]

theorem accept_candidate_some (b : RaftBuddy) (cid : RaftId) (b' : RaftBuddy)
    (h : accept_candidate b cid = some b') :
    cid ≠ b.id ∧
    b' = { b with topology := push_channel b.topology cid (RaftMessage.VoteForCandidate ⟨b.id, b.current_term, b.log.length⟩) } := by
  unfold accept_candidate at h
  split at h
  · exact absurd h (by simp)
  · split at h
    · exact absurd h (by simp)
    · exact ⟨by assumption, (Option.some.inj h).symm⟩

theorem reject_candidate_some (b : RaftBuddy) (cid : RaftId) (b' : RaftBuddy)
    (h : reject_candidate b cid = some b') :
    cid ≠ b.id ∧
    b' = { b with topology := push_channel b.topology cid (RaftMessage.RejectCandidateVote ⟨b.id, b.current_term, b.log.length⟩) } := by
  unfold reject_candidate at h
  split at h
  · exact absurd h (by simp)
  · split at h
    · exact absurd h (by simp)
    · exact ⟨by assumption, (Option.some.inj h).symm⟩

theorem mem_entry_or_insert (votes : List (RaftId × RaftMessage)) (k : RaftId)
    (v : RaftMessage) : ∀ p ∈ votes, p ∈ entry_or_insert votes k v := by
  intro p hp
  unfold entry_or_insert
  split
  · exact hp
  · exact List.mem_append_left _ hp

theorem map_count_push_non_rv (topo : Topology) (cid : RaftId) (m : RaftMessage)
    (hm : is_request_vote m = false) (k : RaftId) :
    (get_channel (push_channel topo cid m) k).map count_request_votes =
      (get_channel topo k).map count_request_votes := by
  rw [get_channel_push]
  by_cases hk : k = cid
  · subst hk
    cases hq : get_channel topo k <;> simp [count_request_votes_append, hm]
  · simp [hk]

theorem process_message_spec (b : RaftBuddy) (m : RaftMessage) (b' : RaftBuddy)
    (h : process_message b m = some b') :
    b'.id = b.id ∧ b'.current_term = b.current_term ∧ b'.log = b.log ∧
    b'.timer = b.timer ∧
    (∀ p ∈ b.votes_received, p ∈ b'.votes_received) ∧
    get_channel b'.topology b.id = get_channel b.topology b.id ∧
    (∀ k, (get_channel b'.topology k).map count_request_votes =
      (get_channel b.topology k).map count_request_votes) := by
  cases m with
  | RequestVote body =>
    simp only [process_message] at h
    split at h
    · obtain ⟨hne, rfl⟩ := reject_candidate_some _ _ _ h
      refine ⟨rfl, rfl, rfl, rfl, fun p hp => hp, ?_, ?_⟩
      · rw [get_channel_push]
        simp [Ne.symm hne]
      · intro k
        apply map_count_push_non_rv
        rfl
    · obtain ⟨hne, rfl⟩ := accept_candidate_some _ _ _ h
      refine ⟨rfl, rfl, rfl, rfl, fun p hp => hp, ?_, ?_⟩
      · rw [get_channel_push]
        simp [Ne.symm hne]
      · intro k
        apply map_count_push_non_rv
        rfl
    · obtain ⟨hne, rfl⟩ := accept_candidate_some _ _ _ h
      refine ⟨rfl, rfl, rfl, rfl, fun p hp => hp, ?_, ?_⟩
      · rw [get_channel_push]
        simp [Ne.symm hne]
      · intro k
        apply map_count_push_non_rv
        rfl
  | VoteForCandidate body =>
    simp only [process_message] at h
    split at h
    · split at h
      · obtain rfl := Option.some.inj h
        exact ⟨rfl, rfl, rfl, rfl, fun p hp => mem_entry_or_insert _ _ _ p hp,
          rfl, fun k => rfl⟩
      · obtain rfl := Option.some.inj h
        exact ⟨rfl, rfl, rfl, rfl, fun p hp => mem_entry_or_insert _ _ _ p hp,
          rfl, fun k => rfl⟩
    · obtain rfl := Option.some.inj h
      exact ⟨rfl, rfl, rfl, rfl, fun p hp => hp, rfl, fun k => rfl⟩
  | RejectCandidateVote body =>
    simp only [process_message] at h
    split at h <;> simp at h

theorem process_messages_spec (ms : List RaftMessage) (b b' : RaftBuddy)
    (h : process_messages b ms = some b') :
    b'.id = b.id ∧ b'.current_term = b.current_term ∧ b'.log = b.log ∧
    b'.timer = b.timer ∧
    (∀ p ∈ b.votes_received, p ∈ b'.votes_received) ∧
    get_channel b'.topology b.id = get_channel b.topology b.id ∧
    (∀ k, (get_channel b'.topology k).map count_request_votes =
      (get_channel b.topology k).map count_request_votes) := by
  induction ms generalizing b with
  | nil =>
    obtain rfl := Option.some.inj h
    exact ⟨rfl, rfl, rfl, rfl, fun p hp => hp, rfl, fun k => rfl⟩
  | cons m rest ih =>
    simp only [process_messages] at h
    split at h
    · simp at h
    · rename_i b1 hm
      obtain ⟨hid1, ht1, hl1, htm1, hv1, ho1, hc1⟩ := process_message_spec _ _ _ hm
      obtain ⟨hid2, ht2, hl2, htm2, hv2, ho2, hc2⟩ := ih _ h
      refine ⟨hid2.trans hid1, ht2.trans ht1, hl2.trans hl1, htm2.trans htm1,
        fun p hp => hv2 p (hv1 p hp), ?_, fun k => (hc2 k).trans (hc1 k)⟩
      rw [hid1] at ho2
      exact ho2.trans ho1

theorem process_inbox_spec (b b' : RaftBuddy) (h : process_inbox b = some b') :
    b'.id = b.id ∧ b'.current_term = b.current_term ∧ b'.log = b.log ∧
    b'.timer = b.timer ∧
    (∀ p ∈ b.votes_received, p ∈ b'.votes_received) ∧
    get_channel b'.topology b.id = some [] ∧
    (∀ k, k ≠ b.id → (get_channel b'.topology k).map count_request_votes =
      (get_channel b.topology k).map count_request_votes) := by
  unfold process_inbox at h
  split at h
  · simp at h
  · rename_i q hq
    obtain ⟨hid, ht, hl, htm, hv, ho, hc⟩ := process_messages_spec _ _ _ h
    refine ⟨hid, ht, hl, htm, hv, ?_, ?_⟩
    · rw [ho]
      show get_channel (set_channel b.topology b.id []) b.id = some []
      rw [get_channel_set]
      simp [hq]
    · intro k hk
      have := hc k
      rw [show get_channel (set_channel b.topology b.id []) k = get_channel b.topology k
        from by rw [get_channel_set]; simp [hk]] at this
      exact this

theorem tick_spec (b b' : RaftBuddy) (h : tick b = some b') :
    b'.id = b.id ∧ b'.current_term = b.current_term ∧ b'.log = b.log ∧
    (∀ p ∈ b.votes_received, p ∈ b'.votes_received) := by
  simp only [tick] at h
  split at h
  · simp at h
  · rename_i q hq
    split at h
    · simp at h
    · rename_i b2 hb2
      obtain rfl := Option.some.inj h
      have hmid : b2.id = b.id ∧ b2.current_term = b.current_term ∧ b2.log = b.log ∧
          (∀ p ∈ b.votes_received, p ∈ b2.votes_received) := by
        split at hb2
        · obtain rfl := Option.some.inj hb2
          exact ⟨rfl, rfl, rfl, fun p hp => hp⟩
        · obtain ⟨h1, h2, h3, _, h5, _, _⟩ := process_inbox_spec _ _ hb2
          exact ⟨h1, h2, h3, h5⟩
      obtain ⟨h1, h2, h3, h4⟩ := hmid
      split
      · exact ⟨h1, h2, h3, h4⟩
      · exact ⟨h1, h2, h3, h4⟩

theorem getLast?_append_right {α : Type} (l1 l2 : List α) (h : l2 ≠ []) :
    (l1 ++ l2).getLast? = l2.getLast? := by
  rw [List.getLast?_append]
  cases hl : l2.getLast? with
  | none => exact absurd (List.getLast?_eq_none_iff.mp hl) h
  | some a => rfl

/-! ### Claim theorems -/

/-- Claim C3: for every log and every `append_entries(prevIndex, prevTerm,
newEntries)` with `newEntries` non-empty, if an entry exists at `prevIndex`,
`prev_term_matches` holds for it, and the first new entry is a node with index
exactly `prevIndex + 1`, then the call returns true and the resulting log is
the old log truncated to length `prevIndex + 1` followed by all of
`newEntries` in order; the final entry of the result equals the last supplied
entry. -/
theorem C3_append_truncates_then_appends (log : RaftLog) (prev_index prev_term : Nat)
    (pe : LogEntry) (t : Nat) (c : String) (rest : List LogEntry)
    (hg : log.get? prev_index = some pe)
    (hm : prev_term_matches pe prev_term prev_index = true) :
    append_entries log prev_index prev_term (LogEntry.Node t (prev_index + 1) c :: rest) =
      (true, log.take (prev_index + 1) ++ (LogEntry.Node t (prev_index + 1) c :: rest)) ∧
    (log.take (prev_index + 1) ++ (LogEntry.Node t (prev_index + 1) c :: rest)).getLast? =
      (LogEntry.Node t (prev_index + 1) c :: rest).getLast? := by
  constructor
  · rw [List.get?_eq_getElem?] at hg
    simp [append_entries, hg, hm, new_entry_is_contiguous]
  · exact getLast?_append_right _ _ (by simp)

/-- Closed check for C3, mirroring the `it_truncates_logs` unit test: the
mismatching suffix after Root is discarded and replaced by the new entries. -/
theorem C3_append_truncates_then_appends_witness :
    ([LogEntry.Root, LogEntry.Node 1 1 "set x 1", LogEntry.Node 2 2 "set x 2",
        LogEntry.Node 3 3 "set x 3"] : RaftLog).get? 0 = some LogEntry.Root ∧
    prev_term_matches LogEntry.Root 0 0 = true ∧
    append_entries
      [LogEntry.Root, LogEntry.Node 1 1 "set x 1", LogEntry.Node 2 2 "set x 2",
        LogEntry.Node 3 3 "set x 3"] 0 0
      [LogEntry.Node 4 1 "set x 1", LogEntry.Node 5 2 "set x 2", LogEntry.Node 6 3 "set x 3"] =
      (true, [LogEntry.Root, LogEntry.Node 4 1 "set x 1", LogEntry.Node 5 2 "set x 2",
        LogEntry.Node 6 3 "set x 3"]) := by
  have h := C3_append_truncates_then_appends
    [LogEntry.Root, LogEntry.Node 1 1 "set x 1", LogEntry.Node 2 2 "set x 2",
      LogEntry.Node 3 3 "set x 3"] 0 0 LogEntry.Root 4 "set x 1"
    [LogEntry.Node 5 2 "set x 2", LogEntry.Node 6 3 "set x 3"] rfl rfl
  exact ⟨rfl, rfl, h.1⟩

/-- Claim C7: `append_entries(prevIndex, prevTerm, [])` with an empty entries
list returns true and leaves the log unchanged whenever an entry exists at
`prevIndex`, regardless of whether that entry's term matches `prevTerm`. -/
theorem C7_empty_append_is_noop (log : RaftLog) (prev_index prev_term : Nat)
    (pe : LogEntry) (hg : log.get? prev_index = some pe) :
    append_entries log prev_index prev_term [] = (true, log) := by
  rw [List.get?_eq_getElem?] at hg
  simp [append_entries, hg]

/-- Closed check for C7, at an entry whose term does not match `prevTerm`. -/
theorem C7_empty_append_is_noop_witness :
    ([LogEntry.Root, LogEntry.Node 5 1 "x"] : RaftLog).get? 1 =
      some (LogEntry.Node 5 1 "x") ∧
    prev_term_matches (LogEntry.Node 5 1 "x") 0 1 = false ∧
    append_entries [LogEntry.Root, LogEntry.Node 5 1 "x"] 1 0 [] =
      (true, [LogEntry.Root, LogEntry.Node 5 1 "x"]) :=
  ⟨rfl, rfl, C7_empty_append_is_noop _ 1 0 _ rfl⟩

/-- Claim C8: whenever `append_entries` returns false — missing `prevIndex`
entry, mismatched term or index at `prevIndex`, or a non-contiguous first new
entry — the log is left completely unchanged. -/
theorem C8_failed_append_leaves_log_unchanged (log : RaftLog)
    (prev_index prev_term : Nat) (entries : List LogEntry)
    (h : (append_entries log prev_index prev_term entries).1 = false) :
    (append_entries log prev_index prev_term entries).2 = log := by
  simp only [append_entries] at h ⊢
  cases hg : log.get? prev_index with
  | none => simp [hg]
  | some pe =>
    simp only [hg] at h ⊢
    cases he : entries.head? with
    | none => simp [he] at h
    | some ne =>
      simp only [he] at h ⊢
      cases hb : prev_term_matches pe prev_term prev_index &&
          new_entry_is_contiguous ne prev_index with
      | false => simp [hb]
      | true => simp [hb] at h

/-- Closed check for C8, mirroring the `it_does_not_append_with_gap_in_index`
unit test: an entry at index 2 after Root fails and mutates nothing. -/
theorem C8_failed_append_leaves_log_unchanged_witness :
    (append_entries [LogEntry.Root] 0 0 [LogEntry.Node 1 2 "set x 42"]).1 = false ∧
    (append_entries [LogEntry.Root] 0 0 [LogEntry.Node 1 2 "set x 42"]).2 =
      [LogEntry.Root] :=
  ⟨rfl, C8_failed_append_leaves_log_unchanged [LogEntry.Root] 0 0
    [LogEntry.Node 1 2 "set x 42"] rfl⟩

/-- Claim C6: for a timer built with `default_timeout = T > 0`, one `tick`
maps `ticks_left = n > 1` to `n - 1`, maps `1` to `0` (the fire event), and
maps `0` to `T` without firing again; hence after exactly `T` ticks from
construction `ticks_left = 0`, and one further tick rearms to `T`. -/
theorem C6_timer_cycle (T : Nat) (hT : 0 < T) :
    (∀ n, 1 < n → (RaftTimer.tick ⟨T, n⟩).ticks_left = n - 1) ∧
    (RaftTimer.tick ⟨T, 1⟩).ticks_left = 0 ∧
    ((RaftTimer.tick ⟨T, 0⟩).ticks_left = T ∧ (RaftTimer.tick ⟨T, 0⟩).ticks_left ≠ 0) ∧
    (RaftTimer.tick^[T] ⟨T, T⟩).ticks_left = 0 ∧
    (RaftTimer.tick^[T + 1] ⟨T, T⟩).ticks_left = T := by
  have hiter : ∀ k, k ≤ T → RaftTimer.tick^[k] ⟨T, T⟩ = ⟨T, T - k⟩ := by
    intro k
    induction k with
    | zero => intro _; simp
    | succ n ih =>
      intro hk
      rw [Function.iterate_succ_apply', ih (Nat.le_of_succ_le hk)]
      simp only [RaftTimer.tick]
      rw [if_neg (by omega), show T - n - 1 = T - (n + 1) from by omega]
  refine ⟨?_, ?_, ⟨?_, ?_⟩, ?_, ?_⟩
  · intro n hn
    simp only [RaftTimer.tick]
    rw [if_neg (by omega)]
  · simp [RaftTimer.tick]
  · simp [RaftTimer.tick]
  · simp [RaftTimer.tick]
    omega
  · rw [hiter T le_rfl]
    simp
  · rw [Function.iterate_succ_apply', hiter T le_rfl]
    simp [RaftTimer.tick]

/-- Closed check for C6 at `T = 2`. -/
theorem C6_timer_cycle_witness :
    (0 < 2) ∧ (RaftTimer.tick ⟨2, 5⟩).ticks_left = 4 ∧
    (RaftTimer.tick^[2] (⟨2, 2⟩ : RaftTimer)).ticks_left = 0 ∧
    (RaftTimer.tick^[3] (⟨2, 2⟩ : RaftTimer)).ticks_left = 2 := by
  have h := C6_timer_cycle 2 (by decide)
  exact ⟨by decide, h.1 5 (by decide), h.2.2.2.1, h.2.2.2.2⟩

/-- Claim C4 fails on the code: processing a `RejectCandidateVote` is not a
total computation — every branch of its `match` is `todo!()`, a panic.  Here
a follower with one such message in its mailbox crashes during `tick`'s
inbox drain (`none` models the panic). -/
theorem C4_counterexample_reject_vote_panics :
    tick ⟨.Follower, 0, [(0, [.RejectCandidateVote ⟨1, 0, 1⟩]), (1, [])],
      ⟨10, 5⟩, 0, [.Root], []⟩ = none := by
  decide

/-- Claim C4 amended: processing a `RejectCandidateVote` message reaches an
unimplemented (`todo!()`, panicking) branch for every node state and every
such message — it never returns normally. -/
theorem C4_amended_reject_vote_always_panics (b : RaftBuddy)
    (body : RaftMessageBody) :
    process_message b (.RejectCandidateVote body) = none := by
  simp only [process_message]
  split <;> rfl

/-- Claim C9: a node's current term never decreases across any operation —
`tick`, becoming Candidate, and processing any message leave `current_term`
unchanged (in particular it is not incremented on becoming Candidate). -/
theorem C9_term_never_decreases :
    (∀ b : RaftBuddy, (become_candidate b).current_term = b.current_term) ∧
    (∀ (b : RaftBuddy) (m : RaftMessage) (b' : RaftBuddy),
      process_message b m = some b' → b'.current_term = b.current_term) ∧
    (∀ b b' : RaftBuddy, tick b = some b' → b'.current_term = b.current_term) :=
  ⟨fun _ => rfl,
   fun b m b' h => (process_message_spec b m b' h).2.1,
   fun b b' h => (tick_spec b b' h).2.1⟩

/-- Closed check for C9: a fire-and-campaign `tick` leaves the term at 0. -/
theorem C9_term_never_decreases_witness :
    tick w_node = some w_node' ∧ w_node'.current_term = w_node.current_term :=
  ⟨by decide, C9_term_never_decreases.2.2 w_node w_node' (by decide)⟩

/-- Claim C10: no operation removes or overwrites an entry of
`votes_received`: processing a vote inserts only when the sender's key is
absent, becoming Candidate leaves the map untouched, and every recorded
entry survives any successful `tick` — so votes persist into every later
candidacy. -/
theorem C10_votes_never_removed :
    (∀ b : RaftBuddy, (become_candidate b).votes_received = b.votes_received) ∧
    (∀ (b : RaftBuddy) (m : RaftMessage) (b' : RaftBuddy),
      process_message b m = some b' →
      ∀ p ∈ b.votes_received, p ∈ b'.votes_received) ∧
    (∀ b b' : RaftBuddy, tick b = some b' →
      ∀ p ∈ b.votes_received, p ∈ b'.votes_received) :=
  ⟨fun _ => rfl,
   fun b m b' h => (process_message_spec b m b' h).2.2.2.2.1,
   fun b b' h => (tick_spec b b' h).2.2.2⟩

/-- Closed check for C10: a candidate re-campaigning on a new timer fire
still holds the vote recorded during its earlier candidacy. -/
theorem C10_votes_never_removed_witness :
    tick w_cand2 = some w_cand2' ∧
    (1, RaftMessage.VoteForCandidate ⟨1, 0, 1⟩) ∈ w_cand2.votes_received ∧
    (1, RaftMessage.VoteForCandidate ⟨1, 0, 1⟩) ∈ w_cand2'.votes_received :=
  ⟨by decide, by decide,
    C10_votes_never_removed.2.2 w_cand2 w_cand2' (by decide) _ (by decide)⟩

/-- Claim C1: whatever its role, a node processing a `RequestVote{senderId,
term, logLength}` addressed to a known peer compares `(ownTerm, ownLogLen)`
with `(term, logLength)` lexicographically and pushes exactly one response
into `senderId`'s mailbox — `RejectCandidateVote` when its own pair is
strictly less, `VoteForCandidate` otherwise — carrying its own id, term and
log length; every other mailbox and all of the node's own fields are left
unchanged. -/
theorem C1_request_vote_response :
    (∀ (b : RaftBuddy) (body : RaftMessageBody),
      body.id ≠ b.id → (get_channel b.topology body.id).isSome →
      (process_message b (.RequestVote body)).isSome) ∧
    (∀ (b : RaftBuddy) (body : RaftMessageBody) (b' : RaftBuddy)
      (q : List RaftMessage),
      body.id ≠ b.id → get_channel b.topology body.id = some q →
      process_message b (.RequestVote body) = some b' →
      (b'.role = b.role ∧ b'.id = b.id ∧ b'.current_term = b.current_term ∧
        b'.log = b.log ∧ b'.timer = b.timer ∧
        b'.votes_received = b.votes_received) ∧
      (∀ k, k ≠ body.id → get_channel b'.topology k = get_channel b.topology k) ∧
      get_channel b'.topology body.id = some (q ++
        [if b.current_term < body.current_term ∨
            (b.current_term = body.current_term ∧ b.log.length < body.log_length)
          then RaftMessage.RejectCandidateVote ⟨b.id, b.current_term, b.log.length⟩
          else RaftMessage.VoteForCandidate ⟨b.id, b.current_term, b.log.length⟩])) := by
  constructor
  · intro b body hne hs
    obtain ⟨q, hq⟩ := Option.isSome_iff_exists.mp hs
    simp only [process_message]
    split <;> simp [reject_candidate, accept_candidate, hne, hq]
  · intro b body b' q hne hq h
    simp only [process_message] at h
    split at h <;> rename_i ho
    · obtain ⟨-, rfl⟩ := reject_candidate_some _ _ _ h
      have hlt := (cmp_lex_eq_lt b.current_term body.current_term
        b.log.length body.log_length).mp ho
      rw [if_pos hlt]
      refine ⟨⟨rfl, rfl, rfl, rfl, rfl, rfl⟩, ?_, ?_⟩
      · intro k hk
        rw [get_channel_push, if_neg hk]
      · rw [get_channel_push, if_pos rfl, hq]
        rfl
    · obtain ⟨-, rfl⟩ := accept_candidate_some _ _ _ h
      have heq := (cmp_lex_eq_eq b.current_term body.current_term
        b.log.length body.log_length).mp ho
      rw [if_neg (by omega)]
      refine ⟨⟨rfl, rfl, rfl, rfl, rfl, rfl⟩, ?_, ?_⟩
      · intro k hk
        rw [get_channel_push, if_neg hk]
      · rw [get_channel_push, if_pos rfl, hq]
        rfl
    · obtain ⟨-, rfl⟩ := accept_candidate_some _ _ _ h
      have hgt := (cmp_lex_eq_gt b.current_term body.current_term
        b.log.length body.log_length).mp ho
      rw [if_neg (by omega)]
      refine ⟨⟨rfl, rfl, rfl, rfl, rfl, rfl⟩, ?_, ?_⟩
      · intro k hk
        rw [get_channel_push, if_neg hk]
      · rw [get_channel_push, if_pos rfl, hq]
        rfl

/-- Closed check for C1: a follower with the same term and log length grants
the vote (equal-tuple case), pushing exactly one `VoteForCandidate` into the
requester's mailbox and leaving its own mailbox untouched. -/
theorem C1_request_vote_response_witness :
    process_message w_recv (.RequestVote ⟨0, 0, 1⟩) = some w_recv' ∧
    get_channel w_recv'.topology 0 = some [.VoteForCandidate ⟨1, 0, 1⟩] ∧
    get_channel w_recv'.topology 1 = get_channel w_recv.topology 1 := by
  have h := C1_request_vote_response.2 w_recv ⟨0, 0, 1⟩ w_recv' []
    (by decide) (by decide) (by decide)
  refine ⟨by decide, ?_, h.2.1 1 (by decide)⟩
  have h3 := h.2.2
  simpa using h3

/-- Claim C2: a Candidate processing `VoteForCandidate` records the vote
keyed by the sender's id, keeping the first vote per sender (duplicates are
ignored), and becomes Leader exactly when the recorded vote count reaches
`topologySize / 2 + 1`; distinct keys stay distinct, and a node that is not a
Candidate neither records nor transitions. -/
theorem C2_vote_granted_counting :
    (∀ (b : RaftBuddy) (body : RaftMessageBody), b.role ≠ .Candidate →
      process_message b (.VoteForCandidate body) = some b) ∧
    (∀ (b : RaftBuddy) (body : RaftMessageBody), b.role = .Candidate →
      (process_message b (.VoteForCandidate body)).isSome) ∧
    (∀ (b : RaftBuddy) (body : RaftMessageBody) (b' : RaftBuddy),
      b.role = .Candidate → process_message b (.VoteForCandidate body) = some b' →
      b'.votes_received =
        entry_or_insert b.votes_received body.id (.VoteForCandidate body) ∧
      ((b.votes_received.any fun p => p.1 == body.id) = true →
        b'.votes_received = b.votes_received) ∧
      (b'.role = .Leader ↔
        b.topology.length / 2 + 1 ≤
          (b'.votes_received.filter fun p => is_vote_for_candidate p.2).length) ∧
      ((b.votes_received.map Prod.fst).Nodup → (b'.votes_received.map Prod.fst).Nodup) ∧
      b'.id = b.id ∧ b'.current_term = b.current_term ∧ b'.log = b.log ∧
      b'.timer = b.timer ∧ b'.topology = b.topology) := by
  have hnodup : ∀ (votes : List (RaftId × RaftMessage)) (k : RaftId)
      (v : RaftMessage), (votes.map Prod.fst).Nodup →
      ((entry_or_insert votes k v).map Prod.fst).Nodup := by
    intro votes k v hnd
    simp only [entry_or_insert]
    split
    · exact hnd
    · rename_i hany
      rw [List.map_append]
      refine List.Nodup.append hnd (by simp) ?_
      intro a ha hb
      simp only [List.map_cons, List.map_nil, List.mem_singleton] at hb
      subst hb
      obtain ⟨p, hp, hpa⟩ := List.mem_map.mp ha
      exact hany (List.any_eq_true.mpr ⟨p, hp, by simp [hpa]⟩)
  refine ⟨?_, ?_, ?_⟩
  · intro b body hr
    simp [process_message, hr]
  · intro b body hr
    simp only [process_message, hr]
    split
    · split <;> rfl
    · rfl
  · intro b body b' hr h
    simp only [process_message, hr, if_true] at h
    split at h <;> rename_i hmaj <;> obtain rfl := Option.some.inj h
    · refine ⟨rfl, ?_, ?_, ?_, rfl, rfl, rfl, rfl, rfl⟩
      · intro hany
        simp [entry_or_insert, become_leader, hany]
      · constructor
        · intro _
          exact of_decide_eq_true hmaj
        · intro _
          rfl
      · exact hnodup _ _ _
    · refine ⟨rfl, ?_, ?_, ?_, rfl, rfl, rfl, rfl, rfl⟩
      · intro hany
        simp [entry_or_insert, hany]
      · constructor
        · intro hL
          exact absurd hL (by simp [hr])
        · intro hge
          exact absurd (decide_eq_true hge) hmaj
      · exact hnodup _ _ _

/-- Closed check for C2: in the five-member topology, a Candidate holding two
recorded votes becomes Leader on the third distinct vote (bare majority 3 of
5), and a Follower processing the same vote is left unchanged. -/
theorem C2_vote_granted_counting_witness :
    process_message w_cand (.VoteForCandidate ⟨3, 0, 1⟩) = some w_cand' ∧
    w_cand'.role = .Leader ∧ w_cand'.votes_received.length = 3 ∧
    process_message w_fol (.VoteForCandidate ⟨3, 0, 1⟩) = some w_fol := by
  have h := C2_vote_granted_counting.2.2 w_cand ⟨3, 0, 1⟩ w_cand' rfl (by decide)
  refine ⟨by decide, ?_, by decide, C2_vote_granted_counting.1 w_fol ⟨3, 0, 1⟩ (by decide)⟩
  exact h.2.2.1.mpr (by decide)

/-- Claim C5: whenever `tick`'s timer advance fires (`ticks_left` is 0 right
after the advance) and the tick completes, the node — whatever its previous
role — ends the tick as Candidate, its own mailbox holds no message, and every
other topology member's mailbox has gained exactly one `RequestVote`, its
queue now ending in `RequestVote{id, current_term, log length}`. -/
theorem C5_timer_fire_broadcast (b b' : RaftBuddy)
    (h : tick b = some b') (hf : (RaftTimer.tick b.timer).ticks_left = 0) :
    b'.role = .Candidate ∧
    get_channel b'.topology b.id = some [] ∧
    (∀ (k : RaftId) (qk : List RaftMessage), k ≠ b.id →
      get_channel b.topology k = some qk →
      ∃ qk' : List RaftMessage, get_channel b'.topology k = some qk' ∧
        count_request_votes qk' = count_request_votes qk + 1 ∧
        qk'.getLast? = some (.RequestVote ⟨b.id, b.current_term, b.log.length⟩)) := by
  simp only [tick] at h
  split at h
  · simp at h
  · rename_i q hq
    split at h
    · simp at h
    · rename_i b2 hb2
      obtain rfl := Option.some.inj h
      have hfacts : b2.id = b.id ∧ b2.current_term = b.current_term ∧
          b2.log = b.log ∧ b2.timer = b.timer.tick ∧
          get_channel b2.topology b.id = some [] ∧
          (∀ k, k ≠ b.id → (get_channel b2.topology k).map count_request_votes =
            (get_channel b.topology k).map count_request_votes) := by
        split at hb2
        · rename_i hqe
          obtain rfl := Option.some.inj hb2
          refine ⟨rfl, rfl, rfl, rfl, ?_, fun k hk => rfl⟩
          rw [List.isEmpty_iff.mp hqe] at hq
          exact hq
        · obtain ⟨h1, h2, h3, h4, -, h6, h7⟩ := process_inbox_spec _ _ hb2
          exact ⟨h1, h2, h3, h4, h6, h7⟩
      obtain ⟨hid, hterm, hlog, htimer, hown, hcnt⟩ := hfacts
      have hfire : b2.timer.ticks_left = 0 := by
        rw [htimer]
        exact hf
      rw [if_pos hfire]
      refine ⟨rfl, ?_, ?_⟩
      · simp only [solicit_votes, become_candidate]
        rw [get_channel_map_push]
        simp only [hid, if_pos rfl]
        exact hown
      · intro k qk hk hqk
        have hmk := hcnt k hk
        rw [hqk] at hmk
        cases hg2 : get_channel b2.topology k with
        | none => rw [hg2] at hmk; exact absurd hmk (by simp)
        | some qk2 =>
          rw [hg2] at hmk
          have hcq : count_request_votes qk2 = count_request_votes qk :=
            Option.some.inj hmk
          refine ⟨qk2 ++ [.RequestVote ⟨b.id, b.current_term, b.log.length⟩], ?_, ?_, ?_⟩
          · simp only [solicit_votes, become_candidate]
            rw [get_channel_map_push]
            rw [hid, if_neg hk, hg2, hterm, hlog]
            rfl
          · rw [count_request_votes_append, hcq]
            rfl
          · rw [List.getLast?_append]
            rfl

/-- Closed check for C5: `w_node`'s timer fires on this tick; it becomes
Candidate, its own mailbox stays empty, and peer 1's mailbox gains exactly
one `RequestVote{0, 0, 1}`. -/
theorem C5_timer_fire_broadcast_witness :
    tick w_node = some w_node' ∧ w_node'.role = .Candidate ∧
    get_channel w_node'.topology 0 = some [] ∧
    get_channel w_node'.topology 1 = some [.RequestVote ⟨0, 0, 1⟩] ∧
    count_request_votes [.RequestVote ⟨0, 0, 1⟩] = count_request_votes [] + 1 := by
  have h := C5_timer_fire_broadcast w_node w_node' (by decide) (by decide)
  obtain ⟨qk', hqk, hc, -⟩ := h.2.2 1 [] (by decide) (by decide)
  have hq1 : qk' = [RaftMessage.RequestVote ⟨0, 0, 1⟩] := by
    have h2 : get_channel w_node'.topology 1 = some [RaftMessage.RequestVote ⟨0, 0, 1⟩] := by
      decide
    rw [hqk] at h2
    exact Option.some.inj h2
  subst hq1
  exact ⟨by decide, h.1, h.2.1, hqk, hc⟩

end RaftingTrip
